import Mathlib

/-
Verification of the XML-to-parquet preprocessing pipeline of the
emissions-data-analysis-cz repository (src/kod/preprocessing.py and
src/kod/utils.py), via a shallow embedding of its parsing and
orchestration functions.
-/

/-- Model of an XML element as seen through lxml.etree: a tag (kept in its
expanded "\x7buri\x7dlocal" form), an attribute list, optional text content
and a list of child elements. -/
inductive Element : Type where
  | mk (tag : String) (attrs : List (String × String)) (text : Option String)
      (children : List Element)

def Element.tag : Element → String
  | .mk t _ _ _ => t

def Element.attrs : Element → List (String × String)
  | .mk _ a _ _ => a

def Element.text : Element → Option String
  | .mk _ _ t _ => t

def Element.children : Element → List Element
  | .mk _ _ _ c => c

/-- Python `str.split(sep)` for a one-character separator, on the character
list: no collapsing of empty fields, and the empty string splits to one empty
field. -/
def splitCharAux (sep : Char) : List Char → List (List Char)
  | [] => [[]]
  | c :: cs =>
    let r := splitCharAux sep cs
    if c = sep then [] :: r
    else (c :: r.headD []) :: r.tail

/-- Python `str.split(sep)` for a one-character separator. -/
def splitOnChar (s : String) (sep : Char) : List String :=
  (splitCharAux sep s.toList).map List.asString

/-- lxml resolves a prefixed path such as "p:Cislo" against the namespaces
mapping, yielding the expanded tag "\x7buri\x7dCislo"; an unprefixed path is
left as is. The source only ever passes single-segment prefixed paths. -/
def resolveTag (xpath : String) (namespaces : List (String × String)) : String :=
  match splitOnChar xpath ':' with
  | [pfx, name] =>
    match namespaces.lookup pfx with
    | some uri => "\x7b" ++ uri ++ "\x7d" ++ name
    | none => xpath
  | _ => xpath

/-- `element.find(xpath, namespaces)`: first direct child whose expanded tag
matches the resolved path, or None. -/
def Element.find (element : Element) (xpath : String)
    (namespaces : List (String × String)) : Option Element :=
  element.children.find? (fun c => c.tag == resolveTag xpath namespaces)

/-- `element.findall(xpath, namespaces)`: all direct children whose expanded
tag matches the resolved path, in document order. -/
def Element.findall (element : Element) (xpath : String)
    (namespaces : List (String × String)) : List Element :=
  element.children.filter (fun c => c.tag == resolveTag xpath namespaces)

/-- `element.get(attribute_name)`: attribute lookup, None when absent. -/
def Element.get (element : Element) (attribute_name : String) : Option String :=
  element.attrs.lookup attribute_name

/-- src/kod/preprocessing.py:211 `safe_get`: returns `node.text` of the first
match, None when the parent is None, the path does not match, or the matched
node has no text. -/
def safe_get (element : Option Element) (xpath : String)
    (namespaces : List (String × String)) : Option String :=
  match element with
  | none => none
  | some el =>
    match el.find xpath namespaces with
    | some node => node.text
    | none => none

/-- src/kod/preprocessing.py:218 `safe_find`. -/
def safe_find (element : Option Element) (xpath : String)
    (namespaces : List (String × String)) : Option Element :=
  match element with
  | none => none
  | some el => el.find xpath namespaces

/-- src/kod/preprocessing.py:224 `safe_findall`. -/
def safe_findall (element : Option Element) (xpath : String)
    (namespaces : List (String × String)) : Option (List Element) :=
  match element with
  | none => none
  | some el => some (el.findall xpath namespaces)

/-- src/kod/preprocessing.py:230 `safe_get_attribute`. -/
def safe_get_attribute (element : Option Element) (attribute_name : String) :
    Option String :=
  match element with
  | none => none
  | some el => el.get attribute_name

/-- src/kod/preprocessing.py:236 `safe_index`: `list[index]` with TypeError
(list is None) and IndexError both absorbed to None. -/
def safe_index (list : Option (List Element)) (index : Nat) : Option Element :=
  match list with
  | none => none
  | some l => l[index]?

/-- A flat record: Python dict from column name to value-or-None, modelled as
an insertion-ordered association list. All column names produced by the
flatteners are pairwise distinct (they use disjoint fixed prefixes), so dict
update coincides with list append. -/
abbrev Record := List (String × Option String)

def recordKeys (r : Record) : List String := r.map Prod.fst

/-- Python truthiness of a possibly-None string (`if not cislo_protokolu`):
None and the empty string are falsy. -/
def pyTruthyStr : Option String → Bool
  | none => false
  | some s => !(s == "")

/-- Python truthiness of a dict: non-empty is truthy. -/
def pyTruthyRec (r : Record) : Bool := !r.isEmpty

/-- Python truthiness of a possibly-None dict (`if prohlidka_record`). -/
def pyTruthyRecOpt : Option Record → Bool
  | none => false
  | some r => pyTruthyRec r

/-! ## Inspection-family record flatteners (src/kod/preprocessing.py:244-423) -/

/-- src/kod/preprocessing.py:244 `get_stanice`. -/
def get_stanice (element : Option Element) (pfx : String)
    (namespaces : List (String × String)) : Record :=
  [ (pfx ++ "_Stanice_Cislo", safe_get element "p:Cislo" namespaces),
    (pfx ++ "_Stanice_Kraj", safe_get element "p:Kraj" namespaces),
    (pfx ++ "_Stanice_ORP", safe_get element "p:ORP" namespaces),
    (pfx ++ "_Stanice_Obec", safe_get element "p:Obec" namespaces) ]

/-- src/kod/preprocessing.py:253 `get_casove_udaje`. -/
def get_casove_udaje (element : Option Element) (pfx : String)
    (namespaces : List (String × String)) : Record :=
  [ (pfx ++ "_Zahajeni", safe_get element "p:Zahajeni" namespaces),
    (pfx ++ "_Ukonceni", safe_get element "p:Ukonceni" namespaces) ]

/-- src/kod/preprocessing.py:260 `get_administrativni_oprava`. -/
def get_administrativni_oprava (element : Option Element)
    (namespaces : List (String × String)) : Record :=
  [ ("AdministrativniOprava_CisloProtokolu", safe_get element "p:CisloProtokolu" namespaces),
    ("AdministrativniOprava_DatumProhlidky", safe_get element "p:DatumProhlidky" namespaces) ]

/-- src/kod/preprocessing.py:267 `get_vozidlo`. -/
def get_vozidlo (element : Option Element)
    (namespaces : List (String × String)) : Record :=
  [ ("Vozidlo_Vin", safe_get element "p:Vin" namespaces),
    ("Vozidlo_Druh", safe_get element "p:Druh" namespaces),
    ("Vozidlo_Kategorie", safe_get element "p:Kategorie" namespaces),
    ("Vozidlo_Provedeni", safe_get element "p:Provedeni" namespaces),
    ("Vozidlo_Znacka", safe_get element "p:Znacka" namespaces),
    ("Vozidlo_ObchodniOznaceni", safe_get element "p:ObchodniOznaceni" namespaces),
    ("Vozidlo_TypMotoru", safe_get element "p:TypMotoru" namespaces) ]

/-- src/kod/preprocessing.py:279 `get_registrace`. -/
def get_registrace (element : Option Element)
    (namespaces : List (String × String)) : Record :=
  [ ("Registrace_DatumPrvni", safe_get element "p:DatumPrvniRegistrace" namespaces),
    ("Registrace_Stat", safe_get element "p:Stat" namespaces),
    ("Registrace_CisloDokladu", safe_get element "p:CisloDokladu" namespaces) ]

/-- src/kod/preprocessing.py:287 `get_emisni_cast`. -/
def get_emisni_cast (element : Option Element)
    (namespaces : List (String × String)) : Record :=
  [ ("Emise_CisloProtokolu", safe_get element "p:CisloProtokolu" namespaces),
    ("Emise_DatumProhlidky", safe_get element "p:DatumProhlidky" namespaces) ]
  ++ get_stanice (safe_find element "p:Stanice" namespaces) "Emise" namespaces
  ++ get_casove_udaje (safe_find element "p:CasoveUdaje" namespaces) "Emise" namespaces
  ++ [ ("Emise_OdpovednaOsoba", safe_get element "p:OdpovednaOsoba" namespaces),
    ("Emise_ZakladniPalivo", safe_get element "p:ZakladniPalivo" namespaces),
    ("Emise_AlternativniPalivo", safe_get element "p:AlternativniPalivo" namespaces),
    ("Emise_EmisniSystem", safe_get element "p:EmisniSystem" namespaces),
    ("Emise_VyrobceMotoru", safe_get element "p:VyrobceMotoru" namespaces),
    ("Emise_CisloMotoru", safe_get element "p:CisloMotoru" namespaces),
    ("Emise_RokVyroby", safe_get element "p:RokVyroby" namespaces) ]

/-- src/kod/preprocessing.py:303 `get_technicka_cast`. -/
def get_technicka_cast (element : Option Element)
    (namespaces : List (String × String)) : Record :=
  get_casove_udaje (safe_find element "p:CasoveUdaje" namespaces) "Technicka" namespaces
  ++ [ ("Technicka_OdpovednaOsoba", safe_get element "p:OdpovednaOsoba" namespaces) ]

/-- src/kod/preprocessing.py:310 `get_platnost`. -/
def get_platnost (element : Option Element)
    (namespaces : List (String × String)) : Record :=
  [ ("Adr_Platnost_Periodicka", safe_get element "p:Periodicka" namespaces),
    ("Adr_Platnost_Meziperiodicka", safe_get element "p:Meziperiodicka" namespaces) ]

/-- src/kod/preprocessing.py:317 `get_adr_cast`. -/
def get_adr_cast (element : Option Element)
    (namespaces : List (String × String)) : Record :=
  get_casove_udaje (safe_find element "p:CasoveUdaje" namespaces) "Adr" namespaces
  ++ [ ("Adr_OdpovednaOsoba", safe_get element "p:OdpovednaOsoba" namespaces) ]
  ++ get_platnost (safe_find element "p:Platnost" namespaces) namespaces
  ++ [ ("Adr_KodCisterny", safe_get element "p:KodCisterny" namespaces),
    ("Adr_CisloOsvedceni", safe_get element "p:CisloOsvedceni" namespaces),
    ("Adr_ZavadyText", safe_get element "p:ZavadyText" namespaces),
    ("Adr_Poznamka", safe_get element "p:Poznamka" namespaces) ]

/-- src/kod/preprocessing.py:329 `get_tsk_cast`. -/
def get_tsk_cast (element : Option Element)
    (namespaces : List (String × String)) : Record :=
  get_casove_udaje (safe_find element "p:CasoveUdaje" namespaces) "Tsk" namespaces
  ++ [ ("Tsk_OdpovednaOsoba", safe_get element "p:OdpovednaOsoba" namespaces) ]

/-- src/kod/preprocessing.py:336 `get_vysledek`. -/
def get_vysledek (element : Option Element)
    (namespaces : List (String × String)) : Record :=
  [ ("Vysledek_Odometr", safe_get element "p:Odometr" namespaces),
    ("Vysledek_Poznamka", safe_get element "p:Poznamka" namespaces),
    ("Vysledek_DatumPristiProhlidky", safe_get element "p:DatumPristiProhlidky" namespaces),
    ("Vysledek_NalepkaVylepena", safe_get element "p:NalepkaVylepena" namespaces),
    ("Vysledek_Celkovy", safe_get element "p:VysledekCelkovy" namespaces) ]

/-- src/kod/preprocessing.py:346 `parse_zavada_seznam`: one Defect record per
`p:Zavada` child, each tagged with the owning protocol number and the
provenance tag `source`; empty when the list element is absent. -/
def parse_zavada_seznam (element : Option Element) (cislo_protokolu : Option String)
    (source : String) (namespaces : List (String × String)) : List Record :=
  match element with
  | none => []
  | some el =>
    (el.findall "p:Zavada" namespaces).map (fun zavada_element =>
      [ ("CisloProtokolu", cislo_protokolu),
        ("Zdroj", some source),
        ("Kod", safe_get (some zavada_element) "p:Kod" namespaces),
        ("Zavaznost", safe_get (some zavada_element) "p:Zavaznost" namespaces) ])

/-- src/kod/preprocessing.py:360 `parse_kontrolni_ukon_seznam`. -/
def parse_kontrolni_ukon_seznam (element : Option Element)
    (cislo_protokolu : Option String) (namespaces : List (String × String)) :
    List Record :=
  match element with
  | none => []
  | some el =>
    (el.findall "p:KontrolniUkon" namespaces).map (fun ukon_element =>
      [ ("CisloProtokolu", cislo_protokolu),
        ("Typ", safe_get (some ukon_element) "p:Typ" namespaces),
        ("Nevyhovujici", safe_get (some ukon_element) "p:Nevyhovujici" namespaces) ])

/-- src/kod/preprocessing.py:373 `parse_adr_typ_seznam`. -/
def parse_adr_typ_seznam (element : Option Element)
    (cislo_protokolu : Option String) (namespaces : List (String × String)) :
    List Record :=
  match element with
  | none => []
  | some el =>
    (el.findall "p:TypVozidlaADR" namespaces).map (fun adr_typ_element =>
      [ ("CisloProtokolu", cislo_protokolu),
        ("TypVozidlaADR", adr_typ_element.text) ])

/-- The wide Inspection record built by `parse_prohlidka`
(src/kod/preprocessing.py:392-407) once the protocol number has passed the
truthiness guard; dict updates append because all prefixes are distinct. -/
def prohlidka_record_of (element : Element) (cislo_protokolu : Option String)
    (namespaces : List (String × String)) : Record :=
  [ ("CisloProtokolu", cislo_protokolu),
    ("DatumProhlidky", safe_get (some element) "p:DatumProhlidky" namespaces) ]
  ++ get_stanice (safe_find (some element) "p:Stanice" namespaces) "Prohlidka" namespaces
  ++ get_casove_udaje (safe_find (some element) "p:CasoveUdaje" namespaces) "Prohlidka" namespaces
  ++ [ ("Prohlidka_OdpovednaOsoba", safe_get (some element) "p:OdpovednaOsoba" namespaces),
    ("DruhProhlidky", safe_get (some element) "p:DruhProhlidky" namespaces),
    ("RozsahProhlidky", safe_get (some element) "p:RozsahProhlidky" namespaces) ]
  ++ get_administrativni_oprava (safe_find (some element) "p:AdministrativniOprava" namespaces) namespaces
  ++ get_vozidlo (safe_find (some element) "p:Vozidlo" namespaces) namespaces
  ++ get_registrace (safe_find (some element) "p:Registrace" namespaces) namespaces
  ++ get_emisni_cast (safe_find (some element) "p:EmisniCast" namespaces) namespaces
  ++ get_technicka_cast (safe_find (some element) "p:TechnickaCast" namespaces) namespaces
  ++ get_adr_cast (safe_find (some element) "p:AdrCast" namespaces) namespaces
  ++ get_tsk_cast (safe_find (some element) "p:TskCast" namespaces) namespaces
  ++ get_vysledek (safe_find (some element) "p:Vysledek" namespaces) namespaces

/-- src/kod/preprocessing.py:385 `parse_prohlidka`: guard on a truthy protocol
number (`if not cislo_protokolu: return None, [], [], []`), then the wide
record plus the three child-record lists (defects from the technical,
traffic-safety and result sections, ADR types, control actions). -/
def parse_prohlidka (element : Element) (namespaces : List (String × String)) :
    Option Record × List Record × List Record × List Record :=
  let cislo_protokolu := safe_get (some element) "p:CisloProtokolu" namespaces
  if pyTruthyStr cislo_protokolu then
    let prohlidka_record := prohlidka_record_of element cislo_protokolu namespaces
    let zavady_records :=
      parse_zavada_seznam
        (safe_find (safe_find (some element) "p:TechnickaCast" namespaces) "p:ZavadaSeznam" namespaces)
        cislo_protokolu "TechnickaCast" namespaces
      ++ parse_zavada_seznam
        (safe_find (safe_find (some element) "p:TskCast" namespaces) "p:ZavadaSeznam" namespaces)
        cislo_protokolu "TskCast" namespaces
      ++ parse_zavada_seznam
        (safe_find (safe_find (some element) "p:Vysledek" namespaces) "p:ZavadaSeznam" namespaces)
        cislo_protokolu "Vysledek" namespaces
    let adr_typy_records :=
      parse_adr_typ_seznam
        (safe_find (safe_find (some element) "p:AdrCast" namespaces) "p:TypVozidlaADRSeznam" namespaces)
        cislo_protokolu namespaces
    let ukony_records :=
      parse_kontrolni_ukon_seznam
        (safe_find (safe_find (some element) "p:TskCast" namespaces) "p:KontrolniUkonSeznam" namespaces)
        cislo_protokolu namespaces
    (some prohlidka_record, zavady_records, ukony_records, adr_typy_records)
  else (none, [], [], [])

/-! ## Measurement-family record flatteners (src/kod/preprocessing.py:427-603) -/

/-- src/kod/preprocessing.py:427 `get_poznamky`: joins the texts of all
`m:poznamka` children with newlines, None when the parent is absent. -/
def get_poznamky (element : Option Element)
    (namespaces : List (String × String)) : Option String :=
  match safe_findall element "m:poznamka" namespaces with
  | none => none
  | some poznamky =>
    some (String.intercalate "\n" (poznamky.filterMap Element.text))

/-- src/kod/preprocessing.py:434 `get_result_attributes`. -/
def get_result_attributes (element : Option Element) (pfx : String) : Record :=
  [ (pfx ++ "_Hodnota", safe_get_attribute element "hodnota"),
    (pfx ++ "_Vysledek", safe_get_attribute element "vysledek") ]

/-- src/kod/preprocessing.py:441 `get_boundary_attributes`. -/
def get_boundary_attributes (element : Option Element) (pfx : String) : Record :=
  [ (pfx ++ "_Hodnota", safe_get_attribute element "hodnota"),
    (pfx ++ "_RucniZadani", safe_get_attribute element "rucniZadani") ]

/-- src/kod/preprocessing.py:448 `get_measured`: value/result attributes plus
min and max boundary attributes; `|` dict union appends since keys are
distinct. -/
def get_measured (element : Option Element) (pfx : String)
    (namespaces : List (String × String)) : Record :=
  let mn := safe_find element "m:min" namespaces
  let mx := safe_find element "m:max" namespaces
  get_result_attributes element pfx
  ++ get_boundary_attributes mn (pfx ++ "_Min")
  ++ get_boundary_attributes mx (pfx ++ "_Max")

/-- src/kod/preprocessing.py:459 `get_monitor_attributes`. -/
def get_monitor_attributes (element : Option Element) (pfx : String) : Record :=
  [ (pfx ++ "_Podporovano", safe_get_attribute element "podporovano"),
    (pfx ++ "_Otestovano", safe_get_attribute element "otestovano") ]

/-- src/kod/preprocessing.py:466 `get_otacky_benzin`: dict comprehension over
the fixed list of measured quantities (keys distinct, so comprehension order
is concatenation order). -/
def get_otacky_benzin (element : Option Element) (pfx : String)
    (namespaces : List (String × String)) : Record :=
  (["CO", "CO2", "COCOOR", "HC", "LAMBDA", "N", "NOX", "O2", "TPS"]).flatMap
    (fun measured =>
      get_measured (safe_find element ("m:" ++ measured) namespaces)
        (pfx ++ "_" ++ measured) namespaces)

/-- src/kod/preprocessing.py:471 `get_mereni_nafta`. -/
def get_mereni_nafta (element : Option Element) (pfx : String)
    (namespaces : List (String × String)) : Record :=
  ([("Tps", "TPS"), ("CasAkcelerace", "casAkcelerace"), ("Kourivost", "kourivost"),
    ("OtackyPrebehove", "otackyPrebehove"), ("OtackyVolnobezne", "otackyVolnobezne"),
    ("Teplota", "teplota"), ("TlakKomory", "tlakKomory"),
    ("TeplotaKomory", "teplotaKomory")]).flatMap
    (fun me =>
      get_measured (safe_find element ("m:" ++ me.2) namespaces)
        (pfx ++ "_" ++ me.1) namespaces)

/-- src/kod/preprocessing.py:476 `get_detail_benzin`: fuel attribute plus, for
outlet indices 0..3 (absent outlets absorbed by `safe_index`), the idle-speed
and raised-speed measurement blocks. -/
def get_detail_benzin (element : Option Element) (pfx : String)
    (namespaces : List (String × String)) : Record :=
  [ (pfx ++ "_Palivo", safe_get_attribute element "palivo") ]
  ++ (let benzin_vyusteni_element_list := safe_findall element "m:vyusteni" namespaces
      ([0, 1, 2, 3] : List Nat).flatMap (fun i =>
        let benzin_vyusteni_element := safe_index benzin_vyusteni_element_list i
        get_otacky_benzin
          (safe_find benzin_vyusteni_element "m:otackyVolnobezne" namespaces)
          (pfx ++ "_Vyusteni" ++ toString i ++ "_OtackyVolnobezne") namespaces
        ++ get_otacky_benzin
          (safe_find benzin_vyusteni_element "m:otackyZvysene" namespaces)
          (pfx ++ "_Vyusteni" ++ toString i ++ "_OtackyZvysene") namespaces))

/-- src/kod/preprocessing.py:487 `get_detail_nafta`. -/
def get_detail_nafta (element : Option Element)
    (namespaces : List (String × String)) : Record :=
  [ ("Nafta_Palivo", safe_get_attribute element "palivo") ]
  ++ (let mereni_vznet_limit_element := safe_find element "m:mereniVznetLimit" namespaces
      ([("Tps", "TPS"), ("CasAkcelerace", "casAkcelerace"), ("Kourivost", "kourivost"),
        ("KourivostRozpeti", "kourivostRozpeti"), ("OtackyPrebehove", "otackyPrebehove"),
        ("OtackyVolnobezne", "otackyVolnobezne")]).flatMap (fun lim =>
        let limit_element := safe_find mereni_vznet_limit_element ("m:" ++ lim.2) namespaces
        get_boundary_attributes (safe_find limit_element "m:min" namespaces)
          ("Nafta_" ++ lim.1 ++ "_Min")
        ++ get_boundary_attributes (safe_find limit_element "m:max" namespaces)
          ("Nafta_" ++ lim.1 ++ "_Max")))
  ++ (let nafta_vyusteni_element_list := safe_findall element "m:vyusteni" namespaces
      ([0, 1, 2, 3] : List Nat).flatMap (fun i =>
        let nafta_vyusteni_element := safe_index nafta_vyusteni_element_list i
        let nafta_mereni_prumer_element :=
          safe_find nafta_vyusteni_element "m:mereniPrumer" namespaces
        get_mereni_nafta nafta_mereni_prumer_element
          ("Nafta_Vyusteni" ++ toString i ++ "_MereniPrumer") namespaces
        ++ (let nafta_mereni_element_list :=
              safe_findall nafta_vyusteni_element "m:mereni" namespaces
            ([0, 1, 2, 3] : List Nat).flatMap (fun j =>
              let nafta_mereni_element := safe_index nafta_mereni_element_list j
              get_mereni_nafta nafta_mereni_element
                ("Nafta_Vyusteni" ++ toString i ++ "_Mereni" ++ toString j) namespaces))))

/-- src/kod/preprocessing.py:511 `get_detail_plyn`: the petrol layout under the
"Plyn" column pfx, plus the gas-tank inspection attributes. -/
def get_detail_plyn (element : Option Element)
    (namespaces : List (String × String)) : Record :=
  get_detail_benzin element "Plyn" namespaces
  ++ (let nadrz_plyn_element :=
        safe_find (safe_find element "m:kontrolaNadrzi" namespaces) "m:nadrz" namespaces
      [ ("Plyn_Nadrz_Vyrobce", safe_get_attribute nadrz_plyn_element "vyrobce"),
        ("Plyn_Nadrz_Homologace", safe_get_attribute nadrz_plyn_element "homologace"),
        ("Plyn_Nadrz_Zivotnost", safe_get_attribute nadrz_plyn_element "zivotnost"),
        ("Plyn_Nadrz_Kontrola", safe_get_attribute nadrz_plyn_element "kontrola") ])

/-- The `all_monitors` table local to `parse_mereni`
(src/kod/preprocessing.py:584-588): three monitor families, each with its
element name and named sub-monitors. -/
def all_monitors : List (String × String × List String) :=
  [ ("Zazeh", "OBDzazeh",
      ["AC", "CAT-FUNC", "COMP", "EGR-VVT", "EVAP", "FUEL", "HCAT", "MISF",
       "O2S-FUNC", "O2S-HEAT", "SAS"]),
    ("Vznet", "OBDvznet",
      ["AC", "BOOST", "COMP", "DPF", "EGR-VVT", "EGS", "FUEL", "MISF",
       "NMHC", "NOX", "RESERVE"]),
    ("J1939", "J1939",
      ["AC", "BOOST", "CAT-FUNC", "COLD", "COMP", "DPF", "EGR-VVT",
       "EGS-FUNC", "EGS-HEAT", "EVAP", "FUEL", "HCAT", "MISF", "NM-HC",
       "NOX", "SAS"]) ]

/-- src/kod/preprocessing.py:523 `parse_mereni`: the single very wide
Measurement record for one `Mereni` element. Unlike `parse_prohlidka` there is
no guard on the protocol number: a record is always returned. On line 576 the
source's `... if not None else ...` conditional is constant-true (`not None`
is True in Python), so only the first branch is ever evaluated and it is
embedded as such. -/
def parse_mereni (element : Element) (namespaces : List (String × String)) :
    Record :=
  let pristroj_data_element := safe_find (some element) "m:PristrojData" namespaces
  let prohlidka_element := safe_find pristroj_data_element "m:prohlidka" namespaces
  let merici_pristroj_element := safe_find prohlidka_element "m:mericiPristroj" namespaces
  let vozidlo_element := safe_find pristroj_data_element "m:vozidlo" namespaces
  let vysledek_mereni_element := safe_find pristroj_data_element "m:vysledekMereni" namespaces
  let vyhovuje_element := safe_find vysledek_mereni_element "m:vyhovuje" namespaces
  let emisni_system_element := safe_find pristroj_data_element "m:emisniSystem" namespaces
  let rizeny_obd_element := safe_find emisni_system_element "m:rizenyOBD" namespaces
  let rizeny_element := safe_find emisni_system_element "m:rizeny" namespaces
  let nerizeny_element := safe_find emisni_system_element "m:nerizeny" namespaces
  let readiness_element := safe_find rizeny_obd_element "m:readiness" namespaces
  [ ("CisloProtokolu", safe_get (some element) "m:CisloProtokolu" namespaces),
    ("DatumProhlidky", safe_get (some element) "m:DatumProhlidky" namespaces),
    ("StaniceCislo", safe_get (safe_find (some element) "m:Stanice" namespaces) "m:Cislo" namespaces),
    ("Zahajeni", safe_get (safe_find (some element) "m:CasoveUdaje" namespaces) "m:Zahajeni" namespaces),
    ("Ukonceni", safe_get (safe_find (some element) "m:CasoveUdaje" namespaces) "m:Ukonceni" namespaces),
    ("OdpovednaOsoba", safe_get (some element) "m:OdpovednaOsoba" namespaces),
    ("Prohlidka_CisloProtokolu", safe_get_attribute prohlidka_element "cisloProtokolu"),
    ("Prohlidka_DatumProhlidky", safe_get_attribute prohlidka_element "datumProhlidky"),
    ("MericiPristroj_Vyrobce", safe_get_attribute merici_pristroj_element "vyrobce"),
    ("MericiPristroj_Typ", safe_get_attribute merici_pristroj_element "typ"),
    ("MericiPristroj_Verze", safe_get_attribute merici_pristroj_element "verze"),
    ("MericiPristroj_OBD", safe_get_attribute merici_pristroj_element "OBD"),
    ("MericiPristroj_VerzeSoftware", safe_get_attribute merici_pristroj_element "verzeSoftware"),
    ("Poznamky", get_poznamky prohlidka_element namespaces),
    ("Vozidlo_Vin", safe_get vozidlo_element "m:VIN" namespaces),
    ("Vozidlo_Znacka", safe_get vozidlo_element "m:tovazniZnacka" namespaces),
    ("Vozidlo_ObchodniOznaceni", safe_get vozidlo_element "m:typVozidla" namespaces),
    ("Vozidlo_TypMotoru", safe_get vozidlo_element "m:typMotoru" namespaces),
    ("Vozidlo_CisloMotoru", safe_get vozidlo_element "m:cisloMotoru" namespaces),
    ("Vozidlo_Odometer", safe_get vozidlo_element "m:stavTachometru" namespaces),
    ("Vozidlo_RokVyroby", safe_get vozidlo_element "m:rokVyroby" namespaces),
    ("Vozidlo_DatumPrvniRegistrace", safe_get vozidlo_element "m:datumPrvniRegistrace" namespaces),
    ("Vozidlo_Palivo", safe_get vozidlo_element "m:palivo" namespaces),
    ("Vysledek_VisualniKontrola", safe_get_attribute vysledek_mereni_element "vysledekVisualniKontroly"),
    ("Vysledek_Readiness", safe_get_attribute vysledek_mereni_element "vysledekReadiness"),
    ("Vysledek_RidiciJednotka", safe_get_attribute vysledek_mereni_element "vysledekRidiciJednotka"),
    ("Vysledek_RidiciJednotkaStav", safe_get_attribute vysledek_mereni_element "vysledekRidiciJednotkaStav"),
    ("Vysledek_Mil", safe_get_attribute vysledek_mereni_element "vysledekMIL"),
    ("Vysledek_TesnostPlynovehoZarizeni", safe_get_attribute vysledek_mereni_element "vysledekTesnostPlynovehoZarizeni"),
    ("Vysledek_Vyhovuje", if vyhovuje_element.isSome then some "true" else none),
    ("PristiProhlidka", safe_get_attribute vyhovuje_element "pristiProhlidka"),
    ("EmisniSystem",
      if rizeny_obd_element.isSome then some "Rizeny_Obd"
      else if rizeny_element.isSome then some "Rizeny"
      else if nerizeny_element.isSome then some "Nerizeny"
      else none),
    ("Obd_KomunikacniProtokol", safe_get rizeny_obd_element "m:komunikacniProtokol" namespaces),
    ("Obd_Vin", safe_get rizeny_obd_element "m:VIN" namespaces),
    ("Obd_PocetDtc", safe_get rizeny_obd_element "m:pocetDTC" namespaces),
    ("Obd_VzdalenostDtc", safe_get rizeny_obd_element "m:vzdalenostDTC" namespaces),
    ("Obd_CasDtc", safe_get rizeny_obd_element "m:casDTC" namespaces),
    ("Obd_KontrolaMil", safe_get rizeny_obd_element "m:kontrolaMIL" namespaces),
    ("Obd_Readiness_Vysledek", safe_get_attribute readiness_element "vysledek") ]
  ++ all_monitors.flatMap (fun fam =>
        let parent := safe_find readiness_element ("m:" ++ fam.2.1) namespaces
        let pfx := "Obd_Readiness_" ++ fam.1
        fam.2.2.flatMap (fun monitor =>
          get_monitor_attributes (safe_find parent ("m:" ++ monitor) namespaces)
            (pfx ++ "_" ++ monitor)))
  ++ get_detail_benzin (safe_find pristroj_data_element "m:detailBenzin" namespaces)
      "Benzin" namespaces
  ++ get_detail_nafta (safe_find pristroj_data_element "m:detailNafta" namespaces)
      namespaces
  ++ get_detail_plyn (safe_find pristroj_data_element "m:detailPlyn" namespaces)
      namespaces

/-! ## Dates and candidate ordering (src/kod/utils.py, preprocessing.py:607) -/

/-- Gregorian leap year, as validated by Python's `datetime.strptime`. -/
def isLeapYear (y : Nat) : Bool :=
  y % 4 == 0 && (y % 100 != 0 || y % 400 == 0)

def daysInMonth (y m : Nat) : Nat :=
  if m == 2 then (if isLeapYear y then 29 else 28)
  else if m == 4 || m == 6 || m == 9 || m == 11 then 30
  else 31

structure PyDate where
  year : Nat
  month : Nat
  day : Nat
deriving DecidableEq, Repr

/-- Dates compare like Python `datetime` values (year, then month, then day);
month and day are below 100, so the packed numeral preserves the order. -/
def PyDate.toNat (d : PyDate) : Nat :=
  (d.year * 100 + d.month) * 100 + d.day

def isDigitChar (c : Char) : Bool := 48 ≤ c.toNat && c.toNat ≤ 57

def isDigits (s : String) : Bool :=
  s.toList ≠ [] && s.toList.all isDigitChar

/-- Decimal value of an all-digit string. -/
def digitsToNat (s : String) : Nat :=
  s.toList.foldl (fun acc c => acc * 10 + (c.toNat - 48)) 0

/-- src/kod/utils.py:21 `str_to_date`: `datetime.strptime(str, "%d-%m-%Y")`.
The strptime pattern needs a 1-2 digit day, a 1-2 digit month, a 4-digit year
separated by literal dashes, and a calendar-valid date; Python raises
ValueError otherwise, modelled as `none`. -/
def str_to_date (s : String) : Option PyDate :=
  match splitOnChar s '-' with
  | [ds, ms, ys] =>
    if isDigits ds ∧ ds.toList.length ≤ 2 ∧ isDigits ms ∧ ms.toList.length ≤ 2
        ∧ isDigits ys ∧ ys.toList.length = 4 then
      let d := digitsToNat ds
      let m := digitsToNat ms
      let y := digitsToNat ys
      if 1 ≤ m ∧ m ≤ 12 ∧ 1 ≤ d ∧ d ≤ daysInMonth y m then
        some ⟨y, m, d⟩
      else none
    else none
  | _ => none

/-- src/kod/utils.py:65 `date_from_file_name`: the date token is what stands
before the first dot and after the last space of the name. -/
def date_from_file_name (file_name : String) : Option PyDate :=
  str_to_date (((splitOnChar ((splitOnChar file_name '.').headD "") ' ')).getLastD "")

/-- A source XML document: file stem (name without the ".xml" extension), full
file name, and the parsed tree's root element. -/
structure XmlFile where
  stem : String
  name : String
  root : Element

/-- Modelled from the spec: `date_from_file_path` is imported by
src/kod/preprocessing.py but absent from src/kod/utils.py. Per spec §6 a
source document is addressed by "a stable file path whose name embeds a date
token as its last space-delimited segment before the extension", so the
function is modelled as `date_from_file_name` applied to the document's file
name. -/
def date_from_file_path (file : XmlFile) : Option PyDate :=
  date_from_file_name file.name

/-- Sort key of a candidate document. A name holding no valid date is mapped
to 0 (Python's `sorted` would instead propagate the ValueError raised by
`str_to_date`; the pipeline only ever sorts names carrying valid dates). -/
def dateKey (file : XmlFile) : Nat :=
  match date_from_file_path file with
  | some d => d.toNat
  | none => 0

/-- Stable insertion of one document into a date-sorted list: it moves before
the first strictly later document, so equal dates keep their original order,
as Python's stable `sorted` does. -/
def insertByDate (a : XmlFile) : List XmlFile → List XmlFile
  | [] => [a]
  | b :: l => if dateKey a < dateKey b then a :: b :: l else b :: insertByDate a l

/-- `sorted(source_dir.glob("*.xml"), key=date_from_file_path)`
(src/kod/preprocessing.py:609): stable ascending sort by embedded date. -/
def sortByDate : List XmlFile → List XmlFile
  | [] => []
  | a :: l => insertByDate a (sortByDate l)

/-! ## Document parsers and batch orchestrator
(src/kod/preprocessing.py:607-696, 725-757) -/

/-- One parquet artifact written by `write_batch`: target directory, document
stem and the rows written. -/
structure Write where
  dir : String
  stem : String
  rows : List Record
deriving DecidableEq

/-- The filesystem path of an artifact. -/
def Write.path (w : Write) : String := w.dir ++ "/" ++ w.stem ++ ".parquet"

/-- src/kod/preprocessing.py:637 `write_batch`: an empty batch writes nothing
(`if not batch_data: return`); otherwise one parquet file named by the
document stem in the table's directory. -/
def write_batch (output_dir : String) (batch_data : List Record)
    (file_stem : String) : List Write :=
  if batch_data.isEmpty then [] else [⟨output_dir, file_stem, batch_data⟩]

/-- Expanded tag used by `iterchildren(tag=...)`: the namespace URI of the
given short name wrapped in braces, then the local name. -/
def iterTag (namespaces : List (String × String)) (pfx name : String) : String :=
  "\x7b" ++ ((namespaces.lookup pfx).getD "") ++ "\x7d" ++ name

/-- The per-element step of the loop in `parse_inspections_file`
(src/kod/preprocessing.py:668-675): parse one `Prohlidka` element and append
its records to the four batches only when the inspection record is truthy. -/
def processProhlidkaElement (namespaces : List (String × String))
    (acc : List Record × List Record × List Record × List Record)
    (element : Element) :
    List Record × List Record × List Record × List Record :=
  let parsed := parse_prohlidka element namespaces
  if pyTruthyRecOpt parsed.1 then
    (acc.1 ++ parsed.1.toList,
     acc.2.1 ++ parsed.2.1,
     acc.2.2.1 ++ parsed.2.2.1,
     acc.2.2.2 ++ parsed.2.2.2)
  else acc

/-- src/kod/preprocessing.py:649 `parse_inspections_file`: skip when the
inspections artifact for this document already exists; otherwise find the
DatovyObsah wrapper — raising KeyError, modelled as `Except.error`, when it is
missing or childless, before any write — then parse every `Prohlidka` child of
its first child and write the four per-table batches. The `delete` flag only
removes the source XML file, never an artifact, and is not modelled. The
result carries the artifact writes performed. -/
def parse_inspections_file (existing_files : List String)
    (inspections_dir defects_dir actions_dir adr_type_dir : String)
    (xml_file : XmlFile) (namespaces : List (String × String)) :
    Except String (List Write) :=
  let target_path := inspections_dir ++ "/" ++ xml_file.stem ++ ".parquet"
  if existing_files.contains target_path then
    Except.ok []
  else
    match xml_file.root.find "d:DatovyObsah" namespaces with
    | none =>
      Except.error ("V souboru \"" ++ xml_file.name ++ "\" chybi element DatovyObsah")
    | some datovy_obsah =>
      match datovy_obsah.children with
      | [] =>
        Except.error ("V souboru \"" ++ xml_file.name ++ "\" chybi element DatovyObsah")
      | prohlidka_element_list :: _ =>
        let elements := prohlidka_element_list.children.filter
          (fun c => c.tag == iterTag namespaces "p" "Prohlidka")
        let batches :=
          elements.foldl (processProhlidkaElement namespaces) ([], [], [], [])
        Except.ok
          (write_batch inspections_dir batches.1 xml_file.stem
           ++ write_batch defects_dir batches.2.1 xml_file.stem
           ++ write_batch actions_dir batches.2.2.1 xml_file.stem
           ++ write_batch adr_type_dir batches.2.2.2 xml_file.stem)

/-- The per-element step of the loop in `parse_measurements_file`
(src/kod/preprocessing.py:740-744): parse one `Mereni` element and append the
record when truthy (which it always is: the dict is never empty). -/
def processMereniElement (namespaces : List (String × String))
    (batch : List Record) (element : Element) : List Record :=
  let mereni_record := parse_mereni element namespaces
  if pyTruthyRec mereni_record then batch ++ [mereni_record] else batch

/-- src/kod/preprocessing.py:725 `parse_measurements_file`: same structure as
the inspections parser, with a single Measurement table and no key guard —
every parsed `Mereni` record is appended when truthy (and `parse_mereni`
always yields a non-empty dict). -/
def parse_measurements_file (existing_files : List String) (target_dir : String)
    (xml_file : XmlFile) (namespaces : List (String × String)) :
    Except String (List Write) :=
  let target_path := target_dir ++ "/" ++ xml_file.stem ++ ".parquet"
  if existing_files.contains target_path then
    Except.ok []
  else
    match xml_file.root.find "d:DatovyObsah" namespaces with
    | none =>
      Except.error ("V souboru \"" ++ xml_file.name ++ "\" chybi element DatovyObsah")
    | some datovy_obsah =>
      match datovy_obsah.children with
      | [] =>
        Except.error ("V souboru \"" ++ xml_file.name ++ "\" chybi element DatovyObsah")
      | mereni_element_list :: _ =>
        let elements := mereni_element_list.children.filter
          (fun c => c.tag == iterTag namespaces "m" "Mereni")
        let mereni_batch := elements.foldl (processMereniElement namespaces) []
        Except.ok (write_batch target_dir mereni_batch xml_file.stem)

def okWrites (r : Except String (List Write)) : List Write :=
  match r with
  | .ok ws => ws
  | .error _ => []

def isErr (r : Except String (List Write)) : Bool :=
  match r with
  | .ok _ => false
  | .error _ => true

/-- src/kod/preprocessing.py:607 `parse_to_parquet`, the batch orchestrator:
sorts the candidate documents by their embedded date, submits one
`file_job` task per document to a ThreadPoolExecutor, and iterates
`as_completed`, where `future.result()` re-raises the first completed failure.
The no-input check (lines 610-611) is commented out, so an empty candidate set
is a silent no-op. The re-raised exception leaves the executor's `with` block,
whose exit calls `shutdown(wait=True)` without `cancel_futures`, so every
already-submitted task still runs to completion regardless of earlier
failures. The outcome that is independent of worker scheduling is the pair of
(artifact writes of all documents, the first failure in one admissible
completion order — submission order). -/
def parse_to_parquet (xml_files : List XmlFile)
    (file_job : XmlFile → Except String (List Write)) :
    List Write × Option String :=
  let sorted_files := sortByDate xml_files
  let results := sorted_files.map file_job
  (results.flatMap okWrites,
   results.findSome? (fun r => match r with | .ok _ => none | .error e => some e))

/-! ## Column-set helpers: the key list of every flattened record is a fixed
function of the schema alone, independent of the source element. -/

theorem recordKeys_nil : recordKeys [] = [] := rfl

theorem recordKeys_cons (k : String) (v : Option String) (r : Record) :
    recordKeys ((k, v) :: r) = k :: recordKeys r := rfl

theorem recordKeys_append (r s : Record) :
    recordKeys (r ++ s) = recordKeys r ++ recordKeys s := by
  simp [recordKeys]

theorem recordKeys_flatMap {α : Type} (l : List α) (f : α → Record) :
    recordKeys (l.flatMap f) = l.flatMap (fun a => recordKeys (f a)) := by
  simp [recordKeys, List.map_flatMap]

def keysResult (pfx : String) : List String :=
  [pfx ++ "_Hodnota", pfx ++ "_Vysledek"]

def keysBoundary (pfx : String) : List String :=
  [pfx ++ "_Hodnota", pfx ++ "_RucniZadani"]

def keysMonitor (pfx : String) : List String :=
  [pfx ++ "_Podporovano", pfx ++ "_Otestovano"]

def keysMeasured (pfx : String) : List String :=
  keysResult pfx ++ keysBoundary (pfx ++ "_Min") ++ keysBoundary (pfx ++ "_Max")

theorem keys_result_attributes (e : Option Element) (pfx : String) :
    recordKeys (get_result_attributes e pfx) = keysResult pfx := rfl

theorem keys_boundary_attributes (e : Option Element) (pfx : String) :
    recordKeys (get_boundary_attributes e pfx) = keysBoundary pfx := rfl

theorem keys_monitor_attributes (e : Option Element) (pfx : String) :
    recordKeys (get_monitor_attributes e pfx) = keysMonitor pfx := rfl

theorem keys_measured (e : Option Element) (pfx : String)
    (n : List (String × String)) :
    recordKeys (get_measured e pfx n) = keysMeasured pfx := rfl

def keysOtacky (pfx : String) : List String :=
  (["CO", "CO2", "COCOOR", "HC", "LAMBDA", "N", "NOX", "O2", "TPS"]).flatMap
    (fun measured => keysMeasured (pfx ++ "_" ++ measured))

theorem keys_otacky_benzin (e : Option Element) (pfx : String)
    (n : List (String × String)) :
    recordKeys (get_otacky_benzin e pfx n) = keysOtacky pfx := by
  simp only [get_otacky_benzin, keysOtacky, recordKeys_flatMap, keys_measured]

def keysMereniNafta (pfx : String) : List String :=
  ([("Tps", "TPS"), ("CasAkcelerace", "casAkcelerace"), ("Kourivost", "kourivost"),
    ("OtackyPrebehove", "otackyPrebehove"), ("OtackyVolnobezne", "otackyVolnobezne"),
    ("Teplota", "teplota"), ("TlakKomory", "tlakKomory"),
    ("TeplotaKomory", "teplotaKomory")]).flatMap
    (fun me => keysMeasured (pfx ++ "_" ++ me.1))

theorem keys_mereni_nafta (e : Option Element) (pfx : String)
    (n : List (String × String)) :
    recordKeys (get_mereni_nafta e pfx n) = keysMereniNafta pfx := by
  simp only [get_mereni_nafta, keysMereniNafta, recordKeys_flatMap, keys_measured]

def keysDetailBenzin (pfx : String) : List String :=
  [pfx ++ "_Palivo"]
  ++ ([0, 1, 2, 3] : List Nat).flatMap (fun i =>
    keysOtacky (pfx ++ "_Vyusteni" ++ toString i ++ "_OtackyVolnobezne")
    ++ keysOtacky (pfx ++ "_Vyusteni" ++ toString i ++ "_OtackyZvysene"))

theorem keys_detail_benzin (e : Option Element) (pfx : String)
    (n : List (String × String)) :
    recordKeys (get_detail_benzin e pfx n) = keysDetailBenzin pfx := by
  simp only [get_detail_benzin, keysDetailBenzin, recordKeys_append,
    recordKeys_flatMap, recordKeys_cons, recordKeys_nil, keys_otacky_benzin]

def keysDetailNafta : List String :=
  ["Nafta_Palivo"]
  ++ ([("Tps", "TPS"), ("CasAkcelerace", "casAkcelerace"), ("Kourivost", "kourivost"),
    ("KourivostRozpeti", "kourivostRozpeti"), ("OtackyPrebehove", "otackyPrebehove"),
    ("OtackyVolnobezne", "otackyVolnobezne")]).flatMap (fun lim =>
      keysBoundary ("Nafta_" ++ lim.1 ++ "_Min")
      ++ keysBoundary ("Nafta_" ++ lim.1 ++ "_Max"))
  ++ ([0, 1, 2, 3] : List Nat).flatMap (fun i =>
      keysMereniNafta ("Nafta_Vyusteni" ++ toString i ++ "_MereniPrumer")
      ++ ([0, 1, 2, 3] : List Nat).flatMap (fun j =>
        keysMereniNafta ("Nafta_Vyusteni" ++ toString i ++ "_Mereni" ++ toString j)))

theorem keys_detail_nafta (e : Option Element) (n : List (String × String)) :
    recordKeys (get_detail_nafta e n) = keysDetailNafta := by
  simp only [get_detail_nafta, keysDetailNafta, recordKeys_append,
    recordKeys_flatMap, recordKeys_cons, recordKeys_nil,
    keys_boundary_attributes, keys_mereni_nafta]

def keysDetailPlyn : List String :=
  keysDetailBenzin "Plyn"
  ++ ["Plyn_Nadrz_Vyrobce", "Plyn_Nadrz_Homologace", "Plyn_Nadrz_Zivotnost",
      "Plyn_Nadrz_Kontrola"]

theorem keys_detail_plyn (e : Option Element) (n : List (String × String)) :
    recordKeys (get_detail_plyn e n) = keysDetailPlyn := by
  simp only [get_detail_plyn, keysDetailPlyn, recordKeys_append,
    recordKeys_cons, recordKeys_nil, keys_detail_benzin]

/-- The fixed column list of the Measurement table: the scalar head columns of
`parse_mereni` followed by the monitor, petrol, diesel and gas blocks. -/
def mereniKeys : List String :=
  [ "CisloProtokolu", "DatumProhlidky", "StaniceCislo", "Zahajeni", "Ukonceni",
    "OdpovednaOsoba", "Prohlidka_CisloProtokolu", "Prohlidka_DatumProhlidky",
    "MericiPristroj_Vyrobce", "MericiPristroj_Typ", "MericiPristroj_Verze",
    "MericiPristroj_OBD", "MericiPristroj_VerzeSoftware", "Poznamky",
    "Vozidlo_Vin", "Vozidlo_Znacka", "Vozidlo_ObchodniOznaceni",
    "Vozidlo_TypMotoru", "Vozidlo_CisloMotoru", "Vozidlo_Odometer",
    "Vozidlo_RokVyroby", "Vozidlo_DatumPrvniRegistrace", "Vozidlo_Palivo",
    "Vysledek_VisualniKontrola", "Vysledek_Readiness", "Vysledek_RidiciJednotka",
    "Vysledek_RidiciJednotkaStav", "Vysledek_Mil",
    "Vysledek_TesnostPlynovehoZarizeni", "Vysledek_Vyhovuje", "PristiProhlidka",
    "EmisniSystem", "Obd_KomunikacniProtokol", "Obd_Vin", "Obd_PocetDtc",
    "Obd_VzdalenostDtc", "Obd_CasDtc", "Obd_KontrolaMil",
    "Obd_Readiness_Vysledek" ]
  ++ all_monitors.flatMap (fun fam =>
      fam.2.2.flatMap (fun monitor =>
        keysMonitor ("Obd_Readiness_" ++ fam.1 ++ "_" ++ monitor)))
  ++ keysDetailBenzin "Benzin" ++ keysDetailNafta ++ keysDetailPlyn

/-- The Measurement record's columns are independent of the source element and
namespace mapping. -/
theorem keys_parse_mereni (e : Element) (n : List (String × String)) :
    recordKeys (parse_mereni e n) = mereniKeys := by
  simp only [parse_mereni, mereniKeys, recordKeys_append, recordKeys_flatMap,
    recordKeys_cons, recordKeys_nil, keys_monitor_attributes,
    keys_detail_benzin, keys_detail_nafta, keys_detail_plyn]

/-- The fixed column list of the Inspection table. -/
def prohlidkaKeys : List String :=
  [ "CisloProtokolu", "DatumProhlidky", "Prohlidka_Stanice_Cislo",
    "Prohlidka_Stanice_Kraj", "Prohlidka_Stanice_ORP", "Prohlidka_Stanice_Obec",
    "Prohlidka_Zahajeni", "Prohlidka_Ukonceni", "Prohlidka_OdpovednaOsoba",
    "DruhProhlidky", "RozsahProhlidky", "AdministrativniOprava_CisloProtokolu",
    "AdministrativniOprava_DatumProhlidky", "Vozidlo_Vin", "Vozidlo_Druh",
    "Vozidlo_Kategorie", "Vozidlo_Provedeni", "Vozidlo_Znacka",
    "Vozidlo_ObchodniOznaceni", "Vozidlo_TypMotoru", "Registrace_DatumPrvni",
    "Registrace_Stat", "Registrace_CisloDokladu", "Emise_CisloProtokolu",
    "Emise_DatumProhlidky", "Emise_Stanice_Cislo", "Emise_Stanice_Kraj",
    "Emise_Stanice_ORP", "Emise_Stanice_Obec", "Emise_Zahajeni",
    "Emise_Ukonceni", "Emise_OdpovednaOsoba", "Emise_ZakladniPalivo",
    "Emise_AlternativniPalivo", "Emise_EmisniSystem", "Emise_VyrobceMotoru",
    "Emise_CisloMotoru", "Emise_RokVyroby", "Technicka_Zahajeni",
    "Technicka_Ukonceni", "Technicka_OdpovednaOsoba", "Adr_Zahajeni",
    "Adr_Ukonceni", "Adr_OdpovednaOsoba", "Adr_Platnost_Periodicka",
    "Adr_Platnost_Meziperiodicka", "Adr_KodCisterny", "Adr_CisloOsvedceni",
    "Adr_ZavadyText", "Adr_Poznamka", "Tsk_Zahajeni", "Tsk_Ukonceni",
    "Tsk_OdpovednaOsoba", "Vysledek_Odometr", "Vysledek_Poznamka",
    "Vysledek_DatumPristiProhlidky", "Vysledek_NalepkaVylepena",
    "Vysledek_Celkovy" ]

/-- The Inspection record's columns are independent of the source element, the
protocol number and the namespace mapping. -/
theorem keys_prohlidka_record (e : Element) (c : Option String)
    (n : List (String × String)) :
    recordKeys (prohlidka_record_of e c n) = prohlidkaKeys := rfl

/-- The fixed column lists of the three child tables. -/
def zavadaKeys : List String := ["CisloProtokolu", "Zdroj", "Kod", "Zavaznost"]

def ukonKeys : List String := ["CisloProtokolu", "Typ", "Nevyhovujici"]

def adrTypKeys : List String := ["CisloProtokolu", "TypVozidlaADR"]

theorem keys_parse_zavada_seznam (e : Option Element) (c : Option String)
    (src : String) (n : List (String × String)) :
    ∀ r ∈ parse_zavada_seznam e c src n, recordKeys r = zavadaKeys := by
  cases e with
  | none => intro r hr; cases hr
  | some el =>
    intro r hr
    simp only [parse_zavada_seznam, List.mem_map] at hr
    obtain ⟨z, _, rfl⟩ := hr
    rfl

theorem keys_parse_kontrolni_ukon_seznam (e : Option Element) (c : Option String)
    (n : List (String × String)) :
    ∀ r ∈ parse_kontrolni_ukon_seznam e c n, recordKeys r = ukonKeys := by
  cases e with
  | none => intro r hr; cases hr
  | some el =>
    intro r hr
    simp only [parse_kontrolni_ukon_seznam, List.mem_map] at hr
    obtain ⟨z, _, rfl⟩ := hr
    rfl

theorem keys_parse_adr_typ_seznam (e : Option Element) (c : Option String)
    (n : List (String × String)) :
    ∀ r ∈ parse_adr_typ_seznam e c n, recordKeys r = adrTypKeys := by
  cases e with
  | none => intro r hr; cases hr
  | some el =>
    intro r hr
    simp only [parse_adr_typ_seznam, List.mem_map] at hr
    obtain ⟨z, _, rfl⟩ := hr
    rfl

/-! ## Sorting and orchestrator lemmas -/

theorem mem_insertByDate (a b : XmlFile) (l : List XmlFile) :
    b ∈ insertByDate a l ↔ b = a ∨ b ∈ l := by
  induction l with
  | nil => simp [insertByDate]
  | cons x xs ih =>
    simp only [insertByDate]
    split
    · simp
    · simp [ih]; tauto

theorem mem_sortByDate (a : XmlFile) (l : List XmlFile) :
    a ∈ sortByDate l ↔ a ∈ l := by
  induction l with
  | nil => simp [sortByDate]
  | cons x xs ih => simp [sortByDate, mem_insertByDate, ih]

theorem pairwise_insertByDate (a : XmlFile) (l : List XmlFile)
    (h : l.Pairwise (fun x y => dateKey x ≤ dateKey y)) :
    (insertByDate a l).Pairwise (fun x y => dateKey x ≤ dateKey y) := by
  induction l with
  | nil => simp [insertByDate]
  | cons b bs ih =>
    rw [List.pairwise_cons] at h
    obtain ⟨hb, hbs⟩ := h
    simp only [insertByDate]
    split
    case isTrue hlt =>
      refine List.pairwise_cons.mpr ⟨?_, List.pairwise_cons.mpr ⟨hb, hbs⟩⟩
      intro y hy
      rcases List.mem_cons.mp hy with hy | hy
      · exact hy ▸ Nat.le_of_lt hlt
      · exact Nat.le_trans (Nat.le_of_lt hlt) (hb y hy)
    case isFalse hge =>
      refine List.pairwise_cons.mpr ⟨?_, ih hbs⟩
      intro y hy
      rcases (mem_insertByDate a y bs).mp hy with hy | hy
      · exact hy ▸ Nat.le_of_not_lt hge
      · exact hb y hy

/-- The candidate enumeration is ascending in the embedded document date. -/
theorem sortByDate_sorted (l : List XmlFile) :
    (sortByDate l).Pairwise (fun x y => dateKey x ≤ dateKey y) := by
  induction l with
  | nil => simp [sortByDate]
  | cons x xs ih => exact pairwise_insertByDate x _ ih

theorem okWrites_flatMap_map (l : List XmlFile)
    (p : XmlFile → Except String (List Write)) :
    (l.map p).flatMap okWrites = l.flatMap (fun f => okWrites (p f)) := by
  induction l with
  | nil => rfl
  | cons x xs ih => simp [ih]

theorem findSome?_map_isSome (l : List XmlFile)
    (p : XmlFile → Except String (List Write)) :
    ((l.map p).findSome?
        (fun r => match r with | .ok _ => none | .error e => some e)).isSome
      ↔ ∃ f ∈ l, isErr (p f) = true := by
  induction l with
  | nil => simp
  | cons x xs ih =>
    simp only [List.map_cons, List.findSome?_cons]
    cases hx : p x with
    | ok ws => simpa [isErr, hx] using ih
    | error e => simp [isErr, hx]

theorem findSome?_map_mem (l : List XmlFile)
    (p : XmlFile → Except String (List Write)) (e : String)
    (h : (l.map p).findSome?
        (fun r => match r with | .ok _ => none | .error e => some e) = some e) :
    ∃ f ∈ l, p f = .error e := by
  induction l with
  | nil => simp at h
  | cons x xs ih =>
    simp only [List.map_cons, List.findSome?_cons] at h
    cases hx : p x with
    | ok ws =>
      rw [hx] at h
      obtain ⟨f, hf, hfe⟩ := ih h
      exact ⟨f, List.mem_cons_of_mem _ hf, hfe⟩
    | error e2 =>
      rw [hx] at h
      simp only [Option.some.injEq] at h
      exact ⟨x, List.mem_cons_self .., h ▸ hx⟩


/-- A `parse_mereni` record is a non-empty dict (its first key is always
CisloProtokolu), hence truthy: no Mereni element is ever dropped. -/
theorem parse_mereni_truthy (e : Element) (n : List (String × String)) :
    pyTruthyRec (parse_mereni e n) = true := rfl

theorem processMereniElement_eq (n : List (String × String))
    (batch : List Record) (e : Element) :
    processMereniElement n batch e = batch ++ [parse_mereni e n] := by
  simp [processMereniElement, parse_mereni_truthy]

/-- The measurement batch loop appends exactly one record per Mereni element,
in document order. -/
theorem mereni_fold_eq_map (n : List (String × String)) (elems : List Element)
    (acc : List Record) :
    elems.foldl (processMereniElement n) acc
      = acc ++ elems.map (fun e => parse_mereni e n) := by
  induction elems generalizing acc with
  | nil => simp
  | cons e es ih =>
    rw [List.foldl_cons, processMereniElement_eq, ih]
    simp

theorem processProhlidka_step_truthy (n : List (String × String))
    (acc : List Record × List Record × List Record × List Record) (e : Element)
    (h : pyTruthyRecOpt (parse_prohlidka e n).1 = true) :
    processProhlidkaElement n acc e =
      (acc.1 ++ (parse_prohlidka e n).1.toList,
       acc.2.1 ++ (parse_prohlidka e n).2.1,
       acc.2.2.1 ++ (parse_prohlidka e n).2.2.1,
       acc.2.2.2 ++ (parse_prohlidka e n).2.2.2) := by
  simp [processProhlidkaElement, h]

theorem processProhlidka_step_falsy (n : List (String × String))
    (acc : List Record × List Record × List Record × List Record) (e : Element)
    (h : pyTruthyRecOpt (parse_prohlidka e n).1 = false) :
    processProhlidkaElement n acc e = acc := by
  simp [processProhlidkaElement, h]

/-- Once the inspections accumulator is non-empty it stays non-empty. -/
theorem prohlidka_fold_fst_ne_nil (n : List (String × String))
    (elems : List Element) :
    ∀ acc : List Record × List Record × List Record × List Record,
    acc.1 ≠ [] → (elems.foldl (processProhlidkaElement n) acc).1 ≠ [] := by
  induction elems with
  | nil => intro acc h; exact h
  | cons e es ih =>
    intro acc h
    rw [List.foldl_cons]
    apply ih
    by_cases htr : pyTruthyRecOpt (parse_prohlidka e n).1 = true
    · rw [processProhlidka_step_truthy n acc e htr]
      intro hcon
      exact h (List.append_eq_nil.mp hcon).1
    · rw [processProhlidka_step_falsy n acc e (by simpa using htr)]
      exact h

/-- If the folded inspections batch ends empty, every step was a key-based
discard and all four batches are untouched. -/
theorem prohlidka_fold_fst_nil (n : List (String × String))
    (elems : List Element) :
    ∀ acc : List Record × List Record × List Record × List Record,
    (elems.foldl (processProhlidkaElement n) acc).1 = [] →
    elems.foldl (processProhlidkaElement n) acc = acc := by
  induction elems with
  | nil => intro acc _; rfl
  | cons e es ih =>
    intro acc h
    rw [List.foldl_cons] at h ⊢
    by_cases htr : pyTruthyRecOpt (parse_prohlidka e n).1 = true
    · exfalso
      refine prohlidka_fold_fst_ne_nil n es _ ?_ h
      rw [processProhlidka_step_truthy n acc e htr]
      cases hrec : (parse_prohlidka e n).1 with
      | none => rw [hrec] at htr; simp [pyTruthyRecOpt] at htr
      | some r => simp [hrec]
    · have hf := processProhlidka_step_falsy n acc e (by simpa using htr)
      rw [hf] at h ⊢
      exact ih acc h

/-! ## Structure of the parse_prohlidka result -/

theorem parse_prohlidka_fst (e : Element) (n : List (String × String)) :
    (parse_prohlidka e n).1 = none
    ∨ (parse_prohlidka e n).1 =
        some (prohlidka_record_of e (safe_get (some e) "p:CisloProtokolu" n) n) := by
  unfold parse_prohlidka
  by_cases h : pyTruthyStr (safe_get (some e) "p:CisloProtokolu" n) = true
  · right; simp [h]
  · left; simp [Bool.not_eq_true] at h; simp [h]

theorem parse_prohlidka_zavady_keys (e : Element) (n : List (String × String)) :
    ∀ r ∈ (parse_prohlidka e n).2.1, recordKeys r = zavadaKeys := by
  unfold parse_prohlidka
  by_cases h : pyTruthyStr (safe_get (some e) "p:CisloProtokolu" n) = true
  · simp only [h, if_true]
    intro r hr
    rcases List.mem_append.mp hr with hr | hr
    · rcases List.mem_append.mp hr with hr | hr
      · exact keys_parse_zavada_seznam _ _ _ _ r hr
      · exact keys_parse_zavada_seznam _ _ _ _ r hr
    · exact keys_parse_zavada_seznam _ _ _ _ r hr
  · simp [Bool.not_eq_true] at h; simp [h]

theorem parse_prohlidka_ukony_keys (e : Element) (n : List (String × String)) :
    ∀ r ∈ (parse_prohlidka e n).2.2.1, recordKeys r = ukonKeys := by
  unfold parse_prohlidka
  by_cases h : pyTruthyStr (safe_get (some e) "p:CisloProtokolu" n) = true
  · simp only [h, if_true]
    intro r hr
    exact keys_parse_kontrolni_ukon_seznam _ _ _ r hr
  · simp [Bool.not_eq_true] at h; simp [h]

theorem parse_prohlidka_adr_keys (e : Element) (n : List (String × String)) :
    ∀ r ∈ (parse_prohlidka e n).2.2.2, recordKeys r = adrTypKeys := by
  unfold parse_prohlidka
  by_cases h : pyTruthyStr (safe_get (some e) "p:CisloProtokolu" n) = true
  · simp only [h, if_true]
    intro r hr
    exact keys_parse_adr_typ_seznam _ _ _ r hr
  · simp [Bool.not_eq_true] at h; simp [h]

/-! ## Concrete fixtures used by witnesses and counterexamples -/

/-- Namespace mapping of `parse_inspections_to_parquet`
(src/kod/preprocessing.py:701-704). -/
def nsInspections : List (String × String) :=
  [("p", "istp:opendata:schemas:ProhlidkaSeznam:v1"),
   ("d", "istp:opendata:schemas:DatovaSada:v1")]

/-- Namespace mapping of `parse_measurements_to_parquet`
(src/kod/preprocessing.py:766-769). -/
def nsMeasurements : List (String × String) :=
  [("m", "istp:opendata:schemas:MereniSeznam:v1"),
   ("d", "istp:opendata:schemas:DatovaSada:v1")]

def pTag (name : String) : String :=
  "\x7bistp:opendata:schemas:ProhlidkaSeznam:v1\x7d" ++ name

def mTag (name : String) : String :=
  "\x7bistp:opendata:schemas:MereniSeznam:v1\x7d" ++ name

def dTag (name : String) : String :=
  "\x7bistp:opendata:schemas:DatovaSada:v1\x7d" ++ name

def pLeaf (name txt : String) : Element := .mk (pTag name) [] (some txt) []

/-- An Inspection element with no protocol number at all. -/
def prohlidkaNoProtokol : Element :=
  .mk (pTag "Prohlidka") [] none [pLeaf "DatumProhlidky" "2020-01-01"]

/-- An Inspection element with protocol "P1" and 2 technical, 1
traffic-safety and 1 result defects. -/
def prohlidkaWithDefects : Element :=
  .mk (pTag "Prohlidka") [] none
    [ pLeaf "CisloProtokolu" "P1",
      .mk (pTag "TechnickaCast") [] none
        [.mk (pTag "ZavadaSeznam") [] none
          [.mk (pTag "Zavada") [] none [pLeaf "Kod" "K1", pLeaf "Zavaznost" "A"],
           .mk (pTag "Zavada") [] none [pLeaf "Kod" "K2", pLeaf "Zavaznost" "B"]]],
      .mk (pTag "TskCast") [] none
        [.mk (pTag "ZavadaSeznam") [] none
          [.mk (pTag "Zavada") [] none [pLeaf "Kod" "K3", pLeaf "Zavaznost" "C"]]],
      .mk (pTag "Vysledek") [] none
        [.mk (pTag "ZavadaSeznam") [] none
          [.mk (pTag "Zavada") [] none [pLeaf "Kod" "K4", pLeaf "Zavaznost" "D"]]] ]

/-- A minimal Inspection element: only a protocol number, every optional
sub-structure absent. -/
def prohlidkaMinimal : Element :=
  .mk (pTag "Prohlidka") [] none [pLeaf "CisloProtokolu" "P2"]

/-- A minimal Mereni element carrying no protocol number. -/
def mereniNoProtokol : Element := .mk (mTag "Mereni") [] none []

/-- A well-formed inspections document (one discarded and one kept
inspection), named with the embedded date 02-02-2021. -/
def inspectionsDocGood : XmlFile :=
  ⟨"good 02-02-2021", "good 02-02-2021.xml",
   .mk "root" [] none
     [.mk (dTag "DatovyObsah") [] none
       [.mk (pTag "ProhlidkaSeznam") [] none
         [prohlidkaNoProtokol, prohlidkaMinimal]]]⟩

/-- A malformed document: the DatovyObsah wrapper is missing entirely. It is
named with the embedded date 01-01-2020, so it sorts before
`inspectionsDocGood`. -/
def inspectionsDocBad : XmlFile :=
  ⟨"bad 01-01-2020", "bad 01-01-2020.xml", .mk "root" [] none []⟩

/-- A well-formed measurements document with a single Mereni element that has
no protocol number. -/
def measurementsDocGood : XmlFile :=
  ⟨"m 03-03-2021", "m 03-03-2021.xml",
   .mk "root" [] none
     [.mk (dTag "DatovyObsah") [] none
       [.mk (mTag "MereniSeznam") [] none [mereniNoProtokol]]]⟩

/-- An inspections document whose wrapper is present but whose element list is
empty, so all four batches stay empty and nothing is written. -/
def inspectionsDocEmpty : XmlFile :=
  ⟨"empty 04-04-2021", "empty 04-04-2021.xml",
   .mk "root" [] none
     [.mk (dTag "DatovyObsah") [] none
       [.mk (pTag "ProhlidkaSeznam") [] none []]]⟩

/-! ## Claim theorems -/

/-- C7: each Safe Tree Navigator operation (safe_get, safe_find, safe_findall,
safe_get_attribute), applied to an absent (None) parent with any path or
attribute name, returns the absent marker None. They are total pure functions
of their arguments, so they cannot raise and have no side effects on the
tree. -/
theorem c7_safe_navigator_absent (xpath attribute_name : String)
    (namespaces : List (String × String)) :
    safe_get none xpath namespaces = none
    ∧ safe_find none xpath namespaces = none
    ∧ safe_findall none xpath namespaces = none
    ∧ safe_get_attribute none attribute_name = none :=
  ⟨rfl, rfl, rfl, rfl⟩

/-- C1: an Inspection element whose protocol number is absent or empty is
discarded entirely: `parse_prohlidka` returns no inspection record and empty
defect, action and ADR-type lists, and the caller's per-element step appends
nothing to any of the four batches. -/
theorem c1_key_based_discard (e : Element) (n : List (String × String))
    (acc : List Record × List Record × List Record × List Record)
    (h : pyTruthyStr (safe_get (some e) "p:CisloProtokolu" n) = false) :
    parse_prohlidka e n = (none, [], [], [])
    ∧ processProhlidkaElement n acc e = acc := by
  have hp : parse_prohlidka e n = (none, [], [], []) := by
    simp [parse_prohlidka, h]
  refine ⟨hp, ?_⟩
  exact processProhlidka_step_falsy n acc e (by rw [hp]; rfl)

/-- Witness for C1: a concrete Inspection element with no protocol number
contributes no record to any table. -/
theorem c1_key_based_discard_witness :
    pyTruthyStr (safe_get (some prohlidkaNoProtokol) "p:CisloProtokolu" nsInspections) = false
    ∧ parse_prohlidka prohlidkaNoProtokol nsInspections = (none, [], [], [])
    ∧ processProhlidkaElement nsInspections ([], [], [], []) prohlidkaNoProtokol
        = ([], [], [], []) :=
  ⟨by decide,
   c1_key_based_discard prohlidkaNoProtokol nsInspections ([], [], [], []) (by decide)⟩

/-- C2: an Inspection element with a truthy protocol number whose technical
section lists exactly 2 defects, traffic-safety section exactly 1 and result
section exactly 1 produces exactly 4 Defect records, in that order, each
carrying the element's protocol number and the provenance tag of the
sub-structure it came from. -/
theorem c2_defect_fan_out (e : Element) (n : List (String × String))
    (cislo : String) (ts ss vs t1 t2 s1 v1 : Element)
    (hc : safe_get (some e) "p:CisloProtokolu" n = some cislo)
    (hne : (cislo == "") = false)
    (hts : safe_find (safe_find (some e) "p:TechnickaCast" n) "p:ZavadaSeznam" n
      = some ts)
    (hss : safe_find (safe_find (some e) "p:TskCast" n) "p:ZavadaSeznam" n
      = some ss)
    (hvs : safe_find (safe_find (some e) "p:Vysledek" n) "p:ZavadaSeznam" n
      = some vs)
    (ht : ts.findall "p:Zavada" n = [t1, t2])
    (hs : ss.findall "p:Zavada" n = [s1])
    (hv : vs.findall "p:Zavada" n = [v1]) :
    (parse_prohlidka e n).2.1 =
      [ [("CisloProtokolu", some cislo), ("Zdroj", some "TechnickaCast"),
         ("Kod", safe_get (some t1) "p:Kod" n),
         ("Zavaznost", safe_get (some t1) "p:Zavaznost" n)],
        [("CisloProtokolu", some cislo), ("Zdroj", some "TechnickaCast"),
         ("Kod", safe_get (some t2) "p:Kod" n),
         ("Zavaznost", safe_get (some t2) "p:Zavaznost" n)],
        [("CisloProtokolu", some cislo), ("Zdroj", some "TskCast"),
         ("Kod", safe_get (some s1) "p:Kod" n),
         ("Zavaznost", safe_get (some s1) "p:Zavaznost" n)],
        [("CisloProtokolu", some cislo), ("Zdroj", some "Vysledek"),
         ("Kod", safe_get (some v1) "p:Kod" n),
         ("Zavaznost", safe_get (some v1) "p:Zavaznost" n)] ]
    ∧ (parse_prohlidka e n).2.1.length = 4 := by
  have htr : pyTruthyStr (safe_get (some e) "p:CisloProtokolu" n) = true := by
    rw [hc]; simp [pyTruthyStr, hne]
  constructor
  · unfold parse_prohlidka
    simp only [hc, hts, hss, hvs]
    simp [parse_zavada_seznam, pyTruthyStr, hne, ht, hs, hv]
  · unfold parse_prohlidka
    simp only [hc, hts, hss, hvs]
    simp [parse_zavada_seznam, pyTruthyStr, hne, ht, hs, hv]

/-- Witness for C2: the concrete 2/1/1-defect Inspection element yields four
Defect records with protocol "P1" and the three provenance tags. -/
theorem c2_defect_fan_out_witness :
    (parse_prohlidka prohlidkaWithDefects nsInspections).2.1 =
      [ [("CisloProtokolu", some "P1"), ("Zdroj", some "TechnickaCast"),
         ("Kod", some "K1"), ("Zavaznost", some "A")],
        [("CisloProtokolu", some "P1"), ("Zdroj", some "TechnickaCast"),
         ("Kod", some "K2"), ("Zavaznost", some "B")],
        [("CisloProtokolu", some "P1"), ("Zdroj", some "TskCast"),
         ("Kod", some "K3"), ("Zavaznost", some "C")],
        [("CisloProtokolu", some "P1"), ("Zdroj", some "Vysledek"),
         ("Kod", some "K4"), ("Zavaznost", some "D")] ]
    ∧ (parse_prohlidka prohlidkaWithDefects nsInspections).2.1.length = 4 := by
  have h := c2_defect_fan_out prohlidkaWithDefects nsInspections "P1"
    (.mk (pTag "ZavadaSeznam") [] none
      [.mk (pTag "Zavada") [] none [pLeaf "Kod" "K1", pLeaf "Zavaznost" "A"],
       .mk (pTag "Zavada") [] none [pLeaf "Kod" "K2", pLeaf "Zavaznost" "B"]])
    (.mk (pTag "ZavadaSeznam") [] none
      [.mk (pTag "Zavada") [] none [pLeaf "Kod" "K3", pLeaf "Zavaznost" "C"]])
    (.mk (pTag "ZavadaSeznam") [] none
      [.mk (pTag "Zavada") [] none [pLeaf "Kod" "K4", pLeaf "Zavaznost" "D"]])
    (.mk (pTag "Zavada") [] none [pLeaf "Kod" "K1", pLeaf "Zavaznost" "A"])
    (.mk (pTag "Zavada") [] none [pLeaf "Kod" "K2", pLeaf "Zavaznost" "B"])
    (.mk (pTag "Zavada") [] none [pLeaf "Kod" "K3", pLeaf "Zavaznost" "C"])
    (.mk (pTag "Zavada") [] none [pLeaf "Kod" "K4", pLeaf "Zavaznost" "D"])
    rfl (by decide) rfl rfl rfl rfl rfl rfl
  exact ⟨by rw [h.1]; rfl, h.2⟩

/-- C3: records emitted into the same table always share one fixed column
list, whatever optional sub-structures the source elements had: the emitted
Inspection record's keys are exactly `prohlidkaKeys`, every Defect, Action
and ADR-type record has its table's fixed keys, and the Measurement record's
keys are exactly `mereniKeys` — all independent of the elements, so any two
records of one table have identical key sets and no key is ever omitted. -/
theorem c3_column_set_uniformity (e1 e2 : Element)
    (n1 n2 : List (String × String))
    (h1 : pyTruthyRecOpt (parse_prohlidka e1 n1).1 = true)
    (h2 : pyTruthyRecOpt (parse_prohlidka e2 n2).1 = true) :
    recordKeys ((parse_prohlidka e1 n1).1.getD []) = prohlidkaKeys
    ∧ recordKeys ((parse_prohlidka e1 n1).1.getD [])
        = recordKeys ((parse_prohlidka e2 n2).1.getD [])
    ∧ (∀ r ∈ (parse_prohlidka e1 n1).2.1, recordKeys r = zavadaKeys)
    ∧ (∀ r ∈ (parse_prohlidka e1 n1).2.2.1, recordKeys r = ukonKeys)
    ∧ (∀ r ∈ (parse_prohlidka e1 n1).2.2.2, recordKeys r = adrTypKeys)
    ∧ recordKeys (parse_mereni e1 n1) = mereniKeys
    ∧ recordKeys (parse_mereni e1 n1) = recordKeys (parse_mereni e2 n2) := by
  have key1 : recordKeys ((parse_prohlidka e1 n1).1.getD []) = prohlidkaKeys := by
    rcases parse_prohlidka_fst e1 n1 with hfst | hfst
    · rw [hfst] at h1; simp [pyTruthyRecOpt] at h1
    · rw [hfst]; simp [keys_prohlidka_record]
  have key2 : recordKeys ((parse_prohlidka e2 n2).1.getD []) = prohlidkaKeys := by
    rcases parse_prohlidka_fst e2 n2 with hfst | hfst
    · rw [hfst] at h2; simp [pyTruthyRecOpt] at h2
    · rw [hfst]; simp [keys_prohlidka_record]
  exact ⟨key1, key1.trans key2.symm,
    parse_prohlidka_zavady_keys e1 n1,
    parse_prohlidka_ukony_keys e1 n1,
    parse_prohlidka_adr_keys e1 n1,
    keys_parse_mereni e1 n1,
    (keys_parse_mereni e1 n1).trans (keys_parse_mereni e2 n2).symm⟩

/-- Witness for C3: the rich 2/1/1-defect element and the minimal
protocol-only element (with every optional sub-structure absent) yield records
with identical key sets. -/
theorem c3_column_set_uniformity_witness :
    recordKeys ((parse_prohlidka prohlidkaWithDefects nsInspections).1.getD [])
      = prohlidkaKeys
    ∧ recordKeys ((parse_prohlidka prohlidkaWithDefects nsInspections).1.getD [])
        = recordKeys ((parse_prohlidka prohlidkaMinimal nsInspections).1.getD [])
    ∧ (∀ r ∈ (parse_prohlidka prohlidkaWithDefects nsInspections).2.1,
        recordKeys r = zavadaKeys)
    ∧ (∀ r ∈ (parse_prohlidka prohlidkaWithDefects nsInspections).2.2.1,
        recordKeys r = ukonKeys)
    ∧ (∀ r ∈ (parse_prohlidka prohlidkaWithDefects nsInspections).2.2.2,
        recordKeys r = adrTypKeys)
    ∧ recordKeys (parse_mereni prohlidkaWithDefects nsInspections) = mereniKeys
    ∧ recordKeys (parse_mereni prohlidkaWithDefects nsInspections)
        = recordKeys (parse_mereni prohlidkaMinimal nsInspections) :=
  c3_column_set_uniformity prohlidkaWithDefects prohlidkaMinimal
    nsInspections nsInspections (by decide) (by decide)

theorem contains_append_left (l1 l2 : List String) (a : String)
    (h : l1.contains a = true) : (l1 ++ l2).contains a = true := by
  simp at h ⊢; exact Or.inl h

theorem contains_append_right (l1 l2 : List String) (a : String)
    (h : l2.contains a = true) : (l1 ++ l2).contains a = true := by
  simp at h ⊢; exact Or.inr h

theorem okWrites_of_isErr (r : Except String (List Write)) (h : isErr r = true) :
    okWrites r = [] := by
  cases r <;> simp [okWrites, isErr] at *

theorem parse_mereni_ne_nil (e : Element) (n : List (String × String)) :
    parse_mereni e n ≠ [] := by
  intro h
  have := parse_mereni_truthy e n
  rw [h] at this
  simp [pyTruthyRec] at this

/-- C10: the Measurement family performs no key-based discard. In a non-skipped
document with a well-formed wrapper, the Measurement batch is exactly one
record per Mereni element, in document order — `parse_mereni` always returns a
non-empty (truthy) record, even when the element's CisloProtokolu is absent. -/
theorem c10_mereni_no_discard (fs : List String) (dir : String) (f : XmlFile)
    (n : List (String × String)) (dob melist : Element) (rest : List Element)
    (hskip : fs.contains (dir ++ "/" ++ f.stem ++ ".parquet") = false)
    (hdob : f.root.find "d:DatovyObsah" n = some dob)
    (hchild : dob.children = melist :: rest) :
    parse_measurements_file fs dir f n =
      .ok (write_batch dir
        ((melist.children.filter (fun c => c.tag == iterTag n "m" "Mereni")).map
          (fun e => parse_mereni e n)) f.stem)
    ∧ ((melist.children.filter (fun c => c.tag == iterTag n "m" "Mereni")).map
        (fun e => parse_mereni e n)).length
      = (melist.children.filter (fun c => c.tag == iterTag n "m" "Mereni")).length
    ∧ ∀ e : Element, parse_mereni e n ≠ [] ∧ pyTruthyRec (parse_mereni e n) = true := by
  refine ⟨?_, by simp,
    fun e => ⟨parse_mereni_ne_nil e n, parse_mereni_truthy e n⟩⟩
  unfold parse_measurements_file
  simp only [hskip, Bool.false_eq_true, if_false, hdob, hchild]
  rw [mereni_fold_eq_map]
  simp

/-- Witness for C10: a fresh measurements document containing one Mereni
element with no protocol number still contributes exactly one Measurement
row. -/
theorem c10_mereni_no_discard_witness :
    parse_measurements_file [] "mereni" measurementsDocGood nsMeasurements =
      .ok (write_batch "mereni"
        (((Element.mk (mTag "MereniSeznam") [] none [mereniNoProtokol]).children.filter
            (fun c => c.tag == iterTag nsMeasurements "m" "Mereni")).map
          (fun e => parse_mereni e nsMeasurements)) measurementsDocGood.stem)
    ∧ (((Element.mk (mTag "MereniSeznam") [] none [mereniNoProtokol]).children.filter
          (fun c => c.tag == iterTag nsMeasurements "m" "Mereni")).map
        (fun e => parse_mereni e nsMeasurements)).length
      = ((Element.mk (mTag "MereniSeznam") [] none [mereniNoProtokol]).children.filter
          (fun c => c.tag == iterTag nsMeasurements "m" "Mereni")).length
    ∧ ∀ e : Element, parse_mereni e nsMeasurements ≠ []
        ∧ pyTruthyRec (parse_mereni e nsMeasurements) = true :=
  c10_mereni_no_discard [] "mereni" measurementsDocGood nsMeasurements
    (.mk (dTag "DatovyObsah") [] none
      [.mk (mTag "MereniSeznam") [] none [mereniNoProtokol]])
    (.mk (mTag "MereniSeznam") [] none [mereniNoProtokol]) []
    (by decide) rfl rfl

/-- The malformed-wrapper condition of both document parsers
(src/kod/preprocessing.py:663, 735): `datovy_obsah is None or
len(datovy_obsah) == 0`. -/
def wrapperMissing (root : Element) (n : List (String × String)) : Bool :=
  match root.find "d:DatovyObsah" n with
  | none => true
  | some dob => dob.children.isEmpty

/-- C6: a document that is actually parsed (its artifact does not already
exist) raises the Malformed Document error exactly when the DatovyObsah
wrapper is missing or childless — in both document parsers — and in that case
no tabular artifact is written: the error return carries no writes, since the
raise happens before any `write_batch` call. -/
theorem c6_malformed_document (fs : List String)
    (inspections_dir defects_dir actions_dir adr_type_dir target_dir : String)
    (f : XmlFile) (nI nM : List (String × String))
    (hi : fs.contains (inspections_dir ++ "/" ++ f.stem ++ ".parquet") = false)
    (hm : fs.contains (target_dir ++ "/" ++ f.stem ++ ".parquet") = false) :
    isErr (parse_inspections_file fs inspections_dir defects_dir actions_dir
        adr_type_dir f nI)
      = wrapperMissing f.root nI
    ∧ isErr (parse_measurements_file fs target_dir f nM)
      = wrapperMissing f.root nM
    ∧ (wrapperMissing f.root nI = true →
        okWrites (parse_inspections_file fs inspections_dir defects_dir
          actions_dir adr_type_dir f nI) = [])
    ∧ (wrapperMissing f.root nM = true →
        okWrites (parse_measurements_file fs target_dir f nM) = []) := by
  have hI : isErr (parse_inspections_file fs inspections_dir defects_dir
      actions_dir adr_type_dir f nI) = wrapperMissing f.root nI := by
    unfold parse_inspections_file wrapperMissing
    simp only [hi, Bool.false_eq_true, if_false]
    cases hfind : f.root.find "d:DatovyObsah" nI with
    | none => simp [isErr]
    | some dob =>
      cases hch : dob.children with
      | nil => simp [isErr, hch]
      | cons a l => simp [isErr, hch]
  have hM : isErr (parse_measurements_file fs target_dir f nM)
      = wrapperMissing f.root nM := by
    unfold parse_measurements_file wrapperMissing
    simp only [hm, Bool.false_eq_true, if_false]
    cases hfind : f.root.find "d:DatovyObsah" nM with
    | none => simp [isErr]
    | some dob =>
      cases hch : dob.children with
      | nil => simp [isErr, hch]
      | cons a l => simp [isErr, hch]
  exact ⟨hI, hM,
    fun hw => okWrites_of_isErr _ (hI.trans hw),
    fun hw => okWrites_of_isErr _ (hM.trans hw)⟩

/-- Witness for C6: the concrete document with no DatovyObsah wrapper is
rejected by both parsers with no writes, on a fresh run. -/
theorem c6_malformed_document_witness :
    isErr (parse_inspections_file [] "prohlidky" "zavady" "ukony" "adr_typy"
        inspectionsDocBad nsInspections)
      = wrapperMissing inspectionsDocBad.root nsInspections
    ∧ isErr (parse_measurements_file [] "mereni" inspectionsDocBad nsMeasurements)
      = wrapperMissing inspectionsDocBad.root nsMeasurements
    ∧ (wrapperMissing inspectionsDocBad.root nsInspections = true →
        okWrites (parse_inspections_file [] "prohlidky" "zavady" "ukony"
          "adr_typy" inspectionsDocBad nsInspections) = [])
    ∧ (wrapperMissing inspectionsDocBad.root nsMeasurements = true →
        okWrites (parse_measurements_file [] "mereni" inspectionsDocBad
          nsMeasurements) = []) :=
  c6_malformed_document [] "prohlidky" "zavady" "ukony" "adr_typy" "mereni"
    inspectionsDocBad nsInspections nsMeasurements (by decide) (by decide)

theorem inspections_skip (fs : List String) (i d a t : String) (f : XmlFile)
    (nI : List (String × String))
    (hc : fs.contains (i ++ "/" ++ f.stem ++ ".parquet") = true) :
    parse_inspections_file fs i d a t f nI = .ok [] := by
  simp only [parse_inspections_file]
  rw [hc]
  simp

theorem measurements_skip (fs : List String) (t : String) (f : XmlFile)
    (nM : List (String × String))
    (hc : fs.contains (t ++ "/" ++ f.stem ++ ".parquet") = true) :
    parse_measurements_file fs t f nM = .ok [] := by
  simp only [parse_measurements_file]
  rw [hc]
  simp

theorem measurements_rerun (fs : List String) (target_dir : String)
    (f : XmlFile) (nM : List (String × String)) (wsM : List Write)
    (h : parse_measurements_file fs target_dir f nM = .ok wsM) :
    parse_measurements_file (fs ++ wsM.map Write.path) target_dir f nM
      = .ok [] := by
  by_cases hc : fs.contains (target_dir ++ "/" ++ f.stem ++ ".parquet") = true
  · have hrun := measurements_skip fs target_dir f nM hc
    rw [hrun] at h
    simp only [Except.ok.injEq] at h
    subst h
    exact measurements_skip _ target_dir f nM
      (by simpa using contains_append_left fs [] _ hc)
  · have hc' : fs.contains (target_dir ++ "/" ++ f.stem ++ ".parquet")
        = false := by simpa using hc
    simp only [parse_measurements_file] at h
    rw [hc'] at h
    simp only [Bool.false_eq_true, if_false] at h
    split at h
    · simp at h
    · split at h
      · simp at h
      next dob melist tail hch =>
        rename_i hfind
        simp only [Except.ok.injEq] at h
        by_cases hb : List.foldl (processMereniElement nM) []
            (List.filter (fun c => c.tag == iterTag nM "m" "Mereni")
              melist.children) = []
        · rw [hb] at h
          simp [write_batch] at h
          subst h
          simp only [parse_measurements_file, List.map_nil, List.append_nil]
          rw [hc']
          simp only [Bool.false_eq_true, if_false, hfind, hch, hb]
          simp [write_batch]
        · cases hB : List.foldl (processMereniElement nM) []
              (List.filter (fun c => c.tag == iterTag nM "m" "Mereni")
                melist.children) with
          | nil => exact absurd hB hb
          | cons r rs =>
            rw [hB] at h
            apply measurements_skip
            apply contains_append_right
            rw [← h]
            simp [write_batch, Write.path]

theorem inspections_rerun (fs : List String)
    (inspections_dir defects_dir actions_dir adr_type_dir : String)
    (f : XmlFile) (nI : List (String × String)) (wsI : List Write)
    (h : parse_inspections_file fs inspections_dir defects_dir actions_dir
      adr_type_dir f nI = .ok wsI) :
    parse_inspections_file (fs ++ wsI.map Write.path) inspections_dir
      defects_dir actions_dir adr_type_dir f nI = .ok [] := by
  by_cases hc : fs.contains (inspections_dir ++ "/" ++ f.stem ++ ".parquet") = true
  · have hrun := inspections_skip fs inspections_dir defects_dir actions_dir
      adr_type_dir f nI hc
    rw [hrun] at h
    simp only [Except.ok.injEq] at h
    subst h
    exact inspections_skip _ inspections_dir defects_dir actions_dir
      adr_type_dir f nI (by simpa using contains_append_left fs [] _ hc)
  · have hc' : fs.contains (inspections_dir ++ "/" ++ f.stem ++ ".parquet")
        = false := by simpa using hc
    simp only [parse_inspections_file] at h
    rw [hc'] at h
    simp only [Bool.false_eq_true, if_false] at h
    split at h
    · simp at h
    · split at h
      · simp at h
      next dob melist tail hch =>
        rename_i hfind
        simp only [Except.ok.injEq] at h
        by_cases hb : (List.foldl (processProhlidkaElement nI) ([], [], [], [])
            (List.filter (fun c => c.tag == iterTag nI "p" "Prohlidka")
              melist.children)).1 = []
        · have hall := prohlidka_fold_fst_nil nI
            (List.filter (fun c => c.tag == iterTag nI "p" "Prohlidka")
              melist.children) ([], [], [], []) hb
          rw [hall] at h
          simp [write_batch] at h
          subst h
          simp only [parse_inspections_file, List.map_nil, List.append_nil]
          rw [hc']
          simp only [Bool.false_eq_true, if_false, hfind, hch, hall]
          simp [write_batch]
        · cases hB1 : (List.foldl (processProhlidkaElement nI) ([], [], [], [])
              (List.filter (fun c => c.tag == iterTag nI "p" "Prohlidka")
                melist.children)).1 with
          | nil => exact absurd hB1 hb
          | cons r rs =>
            rw [hB1] at h
            apply inspections_skip
            apply contains_append_right
            rw [← h]
            simp [write_batch, Write.path]

/-- C5: idempotent skip. A document whose primary-table artifact already
exists is skipped with no parsing and no writing (the result is ok with an
empty write list, whatever the document's tree holds); and rerunning either
document parser after a successful run, with the first run's artifacts on
disk, performs zero writes and raises zero errors. -/
theorem c5_idempotent_skip (fs : List String)
    (inspections_dir defects_dir actions_dir adr_type_dir target_dir : String)
    (f : XmlFile) (nI nM : List (String × String)) (wsI wsM : List Write) :
    (fs.contains (inspections_dir ++ "/" ++ f.stem ++ ".parquet") = true →
      parse_inspections_file fs inspections_dir defects_dir actions_dir
        adr_type_dir f nI = .ok [])
    ∧ (parse_inspections_file fs inspections_dir defects_dir actions_dir
        adr_type_dir f nI = .ok wsI →
      parse_inspections_file (fs ++ wsI.map Write.path) inspections_dir
        defects_dir actions_dir adr_type_dir f nI = .ok [])
    ∧ (fs.contains (target_dir ++ "/" ++ f.stem ++ ".parquet") = true →
      parse_measurements_file fs target_dir f nM = .ok [])
    ∧ (parse_measurements_file fs target_dir f nM = .ok wsM →
      parse_measurements_file (fs ++ wsM.map Write.path) target_dir f nM
        = .ok []) :=
  ⟨inspections_skip fs inspections_dir defects_dir actions_dir adr_type_dir f nI,
   inspections_rerun fs inspections_dir defects_dir actions_dir adr_type_dir f nI wsI,
   measurements_skip fs target_dir f nM,
   measurements_rerun fs target_dir f nM wsM⟩

/-- Witness for C5: with the inspections artifact already on disk the concrete
document is skipped with no writes; and after a fresh successful run of the
wrapper-only document (which writes nothing), the rerun also writes nothing
and raises nothing. -/
theorem c5_idempotent_skip_witness :
    parse_inspections_file ["prohlidky/good 02-02-2021.parquet"] "prohlidky"
      "zavady" "ukony" "adr_typy" inspectionsDocGood nsInspections = .ok []
    ∧ parse_inspections_file ([] ++ List.map Write.path []) "prohlidky"
      "zavady" "ukony" "adr_typy" inspectionsDocEmpty nsInspections = .ok []
    ∧ parse_measurements_file ["mereni/m 03-03-2021.parquet"] "mereni"
      measurementsDocGood nsMeasurements = .ok []
    ∧ parse_measurements_file ([] ++ List.map Write.path []) "mereni"
      inspectionsDocEmpty nsMeasurements = .ok [] :=
  ⟨(c5_idempotent_skip ["prohlidky/good 02-02-2021.parquet"] "prohlidky"
      "zavady" "ukony" "adr_typy" "mereni" inspectionsDocGood nsInspections
      nsMeasurements [] []).1 (by decide),
   (c5_idempotent_skip [] "prohlidky" "zavady" "ukony" "adr_typy" "mereni"
      inspectionsDocEmpty nsInspections nsMeasurements [] []).2.1 rfl,
   (c5_idempotent_skip ["mereni/m 03-03-2021.parquet"] "prohlidky" "zavady"
      "ukony" "adr_typy" "mereni" measurementsDocGood nsInspections
      nsMeasurements [] []).2.2.1 (by decide),
   (c5_idempotent_skip [] "prohlidky" "zavady" "ukony" "adr_typy" "mereni"
      inspectionsDocEmpty nsInspections nsMeasurements [] []).2.2.2 rfl⟩

/-- Dated candidate documents used by the ordering claim. -/
def docJan2020 : XmlFile := ⟨"a 01-01-2020", "a 01-01-2020.xml", .mk "root" [] none []⟩

def docMar2019 : XmlFile := ⟨"b 15-03-2019", "b 15-03-2019.xml", .mk "root" [] none []⟩

def docFeb2021 : XmlFile := ⟨"c 02-02-2021", "c 02-02-2021.xml", .mk "root" [] none []⟩

/-- C8: candidate documents are enumerated in a fixed deterministic order,
ascending by the date embedded as the last space-delimited segment of the file
name before the extension; in particular the documents dated 01-01-2020,
15-03-2019 and 02-02-2021 are enumerated as 15-03-2019, 01-01-2020,
02-02-2021 (a lexicographic name sort would give a different order). -/
theorem c8_deterministic_ordering (files : List XmlFile)
    (p : XmlFile → Except String (List Write)) :
    (parse_to_parquet files p).1
      = (sortByDate files).flatMap (fun f => okWrites (p f))
    ∧ (sortByDate files).Pairwise (fun x y => dateKey x ≤ dateKey y)
    ∧ sortByDate [docJan2020, docMar2019, docFeb2021]
      = [docMar2019, docJan2020, docFeb2021]
    ∧ date_from_file_path docMar2019 = some ⟨2019, 3, 15⟩
    ∧ date_from_file_path docJan2020 = some ⟨2020, 1, 1⟩
    ∧ date_from_file_path docFeb2021 = some ⟨2021, 2, 2⟩ := by
  refine ⟨?_, sortByDate_sorted files, rfl, rfl, rfl, rfl⟩
  unfold parse_to_parquet
  exact okWrites_flatMap_map _ p

/-- The inspections file parser as dispatched by
`parse_inspections_to_parquet`, on an empty output directory. -/
def inspectionsParserFresh : XmlFile → Except String (List Write) :=
  fun xml_file => parse_inspections_file [] "prohlidky" "zavady" "ukony"
    "adr_typy" xml_file nsInspections

/-- C9 counterexample: on an empty candidate set the batch run returns no
writes and no error at all — it silently succeeds instead of surfacing a
No-Input error, and `parse_to_parquet` has no caller-configurable switch (the
no-input check at src/kod/preprocessing.py:610-611 is commented out). -/
theorem c9_no_input_counterexample :
    parse_to_parquet [] inspectionsParserFresh = ([], none) := rfl

/-- C9 amended: when the candidate set is empty the pipeline is an
unconditional silent no-op: it performs no writes and raises no error for
every file parser; no No-Input error exists and emptiness is not
caller-configurable. -/
theorem c9_empty_candidates_silent_noop
    (p : XmlFile → Except String (List Write)) :
    parse_to_parquet [] p = ([], none) := rfl

/-- C4 counterexample: a batch of two documents where the earlier-dated one
(submitted first) is malformed. The run does re-raise the error, but the
well-formed document queued behind it is not cancelled: its inspections
artifact exists in the run's writes — under every worker scheduling, because
`ThreadPoolExecutor.__exit__` waits for all submitted tasks without
cancelling them. This contradicts the claim that queued documents are
cancelled and leave no artifact. -/
theorem c4_cancellation_counterexample :
    (parse_to_parquet [inspectionsDocGood, inspectionsDocBad]
        inspectionsParserFresh).2
      = some ("V souboru \"bad 01-01-2020.xml\" chybi element DatovyObsah")
    ∧ (parse_to_parquet [inspectionsDocGood, inspectionsDocBad]
        inspectionsParserFresh).1.map Write.path
      = ["prohlidky/good 02-02-2021.parquet"] :=
  ⟨rfl, rfl⟩

/-- C4 amended: when any document's parse raises, the batch run re-raises the
first observed failure (one of the documents' own errors) to the caller, but
no queued work is cancelled: every submitted document still runs to
completion, so each successfully parsed document's artifact writes are all
present in the run's output even when the batch errors. -/
theorem c4_fail_fast_no_cancellation (files : List XmlFile)
    (p : XmlFile → Except String (List Write)) :
    ((parse_to_parquet files p).2 ≠ none ↔ ∃ f ∈ files, isErr (p f) = true)
    ∧ (∀ e, (parse_to_parquet files p).2 = some e →
        ∃ f ∈ files, p f = .error e)
    ∧ (∀ f ∈ files, okWrites (p f) ⊆ (parse_to_parquet files p).1) := by
  refine ⟨?_, ?_, ?_⟩
  · simp only [parse_to_parquet]
    rw [Option.ne_none_iff_isSome, findSome?_map_isSome]
    constructor
    · rintro ⟨f, hf, he⟩
      exact ⟨f, (mem_sortByDate f files).mp hf, he⟩
    · rintro ⟨f, hf, he⟩
      exact ⟨f, (mem_sortByDate f files).mpr hf, he⟩
  · intro e he
    simp only [parse_to_parquet] at he
    obtain ⟨f, hf, hfe⟩ := findSome?_map_mem _ p e he
    exact ⟨f, (mem_sortByDate f files).mp hf, hfe⟩
  · intro f hf w hw
    simp only [parse_to_parquet]
    rw [okWrites_flatMap_map, List.mem_flatMap]
    exact ⟨f, (mem_sortByDate f files).mpr hf, hw⟩

/-- Witness for C4 (amended): in the concrete two-document batch the error is
re-raised (the result error slot is occupied) and every write of the
well-formed document survives in the output. -/
theorem c4_fail_fast_no_cancellation_witness :
    ((parse_to_parquet [inspectionsDocGood, inspectionsDocBad]
        inspectionsParserFresh).2 ≠ none)
    ∧ okWrites (inspectionsParserFresh inspectionsDocGood)
      ⊆ (parse_to_parquet [inspectionsDocGood, inspectionsDocBad]
          inspectionsParserFresh).1 :=
  ⟨(c4_fail_fast_no_cancellation [inspectionsDocGood, inspectionsDocBad]
      inspectionsParserFresh).1.mpr
    ⟨inspectionsDocBad, by simp, by decide⟩,
   (c4_fail_fast_no_cancellation [inspectionsDocGood, inspectionsDocBad]
      inspectionsParserFresh).2.2 inspectionsDocGood (by simp)⟩
